import Mathlib

/-!
Verification of the subscription-entitlement backend (App Store webhook,
purchase sync, and cached status check) against its specification.

The JavaScript sources are shallowly embedded: every function that a claim
refers to is translated into a computable Lean definition, field for field
and branch for branch.  JavaScript dynamic values are rendered as follows:
absent/undefined object fields become `Option.none`; JavaScript truthiness
on identifier strings is `none`/empty ↦ false, and on millisecond numbers
`none`/0 ↦ false; epoch-millisecond timestamps (delivered as strings and
re-parsed with parseInt in the source) are modelled as the parsed `Nat`
value; `Timestamp.fromMillis`/`toMillis` round-trips are the identity.
-/

/-- Entitlement enumeration, from shared/constant.js
(FREE "free", TRIAL "trial", PREMIUM "premium"). -/
inductive Entitlement where
  | free
  | trial
  | premium
deriving DecidableEq, Repr

/-- Subscription-status enumeration, from shared/constant.js
(ACTIVE, CANCELLING, CANCELLED, EXPIRED, REFUNDED, NEVER_SUBSCRIBED). -/
inductive SubStatus where
  | active
  | cancelling
  | cancelled
  | expired
  | refunded
  | neverSubscribed
deriving DecidableEq, Repr

/-- Character-list test: the first argument occurs at the head of the second. -/
def headMatch : List Char → List Char → Bool
  | [], _ => true
  | _ :: _, [] => false
  | a :: as, b :: bs => a == b && headMatch as bs

/-- Character-list test: the first argument occurs somewhere in the second. -/
def occursIn (p : List Char) : List Char → Bool
  | [] => headMatch p []
  | c :: rest => headMatch p (c :: rest) || occursIn p rest

/-- JavaScript String.prototype.includes. -/
def strIncludes (s pat : String) : Bool :=
  occursIn pat.data s.data

/-- JavaScript String.prototype.startsWith. -/
def startsWithStr (s pre : String) : Bool :=
  headMatch pre.data s.data

/-- JavaScript truthiness of a possibly-absent string field
(undefined and the empty string are falsy). -/
def strTruthy : Option String → Bool
  | none => false
  | some s => s ≠ ""

/-- JavaScript truthiness of a possibly-absent numeric field
(undefined and 0 are falsy). -/
def natTruthy : Option Nat → Bool
  | none => false
  | some n => n ≠ 0

/-- Decoded transaction payload: the middle part of a signed transaction
JWS after base64url + JSON parsing (the TransactionRecord of the data
model; all fields may be absent from the decoded JSON). -/
structure RawPayload where
  transactionId : Option String := none
  originalTransactionId : Option String := none
  productId : Option String := none
  purchaseDate : Option Nat := none
  expiresDate : Option Nat := none
  offerType : Option Nat := none
  revocationDate : Option Nat := none
  appAccountToken : Option String := none
  environment : Option String := none
  inAppOwnershipType : Option String := none
  originalPurchaseDate : Option Nat := none
  bundleId : Option String := none
deriving DecidableEq, Repr

/-- Decoded renewal-info payload (only autoRenewStatus is consulted). -/
structure RenewalPayload where
  autoRenewStatus : Option Nat := none
deriving DecidableEq, Repr

/-- A signed envelope as the decoders see it: the number of dot-delimited
parts, whether the header part parses (base64url + JSON), and the result
of parsing the payload part (`none` when base64url/JSON parsing throws).
The payload type is a parameter because notification envelopes and
transaction envelopes carry different JSON shapes. -/
structure JWS (α : Type) where
  partCount : Nat
  headerOk : Bool := true
  payloadParse : Option α := none
deriving DecidableEq, Repr

/-- decodeJWS from the webhook module (also duplicated verbatim in the
status-check module): split on ".", require exactly 3 parts, decode the
middle part, return the parsed payload directly, or null on any failure.
No field of the payload is validated. -/
def decodeJWS {α : Type} (jws : JWS α) : Option α :=
  if jws.partCount ≠ 3 then none
  else jws.payloadParse

/-- Result shape of verifyAndDecodeJWS in syncPurchaseInfo.js:
success with the decoded payload, or failure. -/
inductive DecodeResult (α : Type) where
  | ok (payload : α)
  | fail
deriving DecidableEq, Repr

/-- verifyAndDecodeJWS from syncPurchaseInfo.js: require 3 dot-delimited
parts, parse the header and the payload (an exception in either parse is
caught and reported as failure), then require the fields transactionId,
originalTransactionId and productId to be truthy. -/
def verifyAndDecodeJWS (jws : JWS RawPayload) : DecodeResult RawPayload :=
  if jws.partCount ≠ 3 then .fail
  else if !jws.headerOk then .fail
  else
    match jws.payloadParse with
    | none => .fail
    | some payload =>
      if !strTruthy payload.transactionId then .fail
      else if !strTruthy payload.originalTransactionId then .fail
      else if !strTruthy payload.productId then .fail
      else .ok payload

example : strIncludes "application/json" "json" = true := by decide
example : strIncludes "premium_weekly" "monthly" = false := by decide
example : startsWithStr "premium_monthly" "premium" = true := by decide

/-- Result record of analyzeJWSTransaction in syncPurchaseInfo.js. -/
structure JWSAnalysis where
  entitlement : Entitlement
  subscriptionStatus : SubStatus
  autoRenewEnabled : Bool
  subscriptionType : Option String
  expirationDate : Option Nat
  dataSource : String
deriving DecidableEq, Repr

/-- analyzeJWSTransaction from syncPurchaseInfo.js: classify a single
decoded transaction at time `now`.  expiresDate defaults to 0 when absent;
isExpired uses the strict comparison expiresDate < now; a trial is
offerType 5 or 1; a truthy revocationDate forces FREE/REFUNDED after the
entitlement was computed; subscriptionType is "yearly" when the productId
contains "yearly" and "monthly" otherwise.  (The source renders the
expiration as expiresDate.toString(); the numeric value is kept here.) -/
def analyzeJWSTransaction (transaction : RawPayload) (now : Nat) : JWSAnalysis :=
  let expiresDate := transaction.expiresDate.getD 0
  let isExpired := expiresDate > 0 && expiresDate < now
  let isFreeTrial :=
    transaction.offerType == some 5 || transaction.offerType == some 1
  let isPremium := !isFreeTrial
  let entitlement0 : Entitlement :=
    if !isExpired then
      if isFreeTrial then .trial
      else if isPremium then .premium
      else .free
    else .free
  let subscriptionType : Option String :=
    match transaction.productId with
    | some p => if strIncludes p "yearly" then some "yearly" else some "monthly"
    | none => some "monthly"
  if natTruthy transaction.revocationDate then
    { entitlement := .free, subscriptionStatus := .refunded,
      autoRenewEnabled := true, subscriptionType := subscriptionType,
      expirationDate := some expiresDate, dataSource := "jws-only" }
  else if isExpired then
    { entitlement := .free, subscriptionStatus := .expired,
      autoRenewEnabled := true, subscriptionType := subscriptionType,
      expirationDate := some expiresDate, dataSource := "jws-only" }
  else
    { entitlement := entitlement0, subscriptionStatus := .active,
      autoRenewEnabled := true, subscriptionType := subscriptionType,
      expirationDate := some expiresDate, dataSource := "jws-only" }

/-- Argument record of determinePlanStatus in planStatusLogic.js. -/
structure PlanStatusInput where
  currentPlan : Option String := none
  isActive : Bool := false
  isFreeTrial : Bool := false
  autoRenewStatus : Bool := false
  expirationDate : Option Nat := none
  revocationDate : Option Nat := none
  isInGracePeriod : Bool := false
  hasEverUsedTrial : Bool := false
  hasEverUsedPremium : Bool := false
deriving DecidableEq, Repr

/-- Result record of determinePlanStatus in planStatusLogic.js. -/
structure PlanStatusResult where
  entitlement : Entitlement
  subscriptionStatus : SubStatus
  hasUsedTrial : Bool
  autoRenewEnabled : Bool
  expirationDate : Option Nat
deriving DecidableEq, Repr

/-- determinePlanStatus from planStatusLogic.js: the entitlement is
computed from the trial flag, the plan name and the expiry alone; the
subscription status is computed afterwards, with a truthy revocationDate
taking priority, then expiry, then cancellation.  hasUsedTrial is the OR
of the prior flag and the current trial flag. -/
def determinePlanStatus (i : PlanStatusInput) (now : Nat) : PlanStatusResult :=
  let isExpired :=
    natTruthy i.expirationDate && i.expirationDate.getD 0 < now
  let entitlement : Entitlement :=
    if i.isFreeTrial && (i.isActive || !isExpired) then .trial
    else if (match i.currentPlan with
             | some p => startsWithStr p "premium"
             | none => false) && (i.isActive || !isExpired) then .premium
    else .free
  let subscriptionStatus : SubStatus :=
    if natTruthy i.revocationDate then .refunded
    else if isExpired then .expired
    else if !i.autoRenewStatus && (i.isActive || entitlement != .free) then
      .cancelling
    else if !i.isActive && !isExpired then .cancelled
    else .active
  { entitlement := entitlement
    subscriptionStatus := subscriptionStatus
    hasUsedTrial := i.hasEverUsedTrial || i.isFreeTrial
    autoRenewEnabled := i.autoRenewStatus
    expirationDate :=
      if natTruthy i.expirationDate then i.expirationDate else none }

/-- Result record of createBasicSubscriptionInfo in the status-check
module (part of the stored unified subscription data it produces). -/
structure BasicInfo where
  entitlement : Entitlement := .free
  subscriptionStatus : SubStatus := .neverSubscribed
  hasUsedTrial : Bool := false
  autoRenewEnabled : Bool := false
  subscriptionType : Option String := none
  expirationDate : Option Nat := none
  hasFamilySharedSubscription : Bool := false
  environment : Option String := none
  subscriptionStartDate : Option Nat := none
  originalTransactionId : Option String := none
  lastTransactionId : Option String := none
  productId : Option String := none
  purchaseDate : Option Nat := none
  offerType : Option Nat := none
  appAccountToken : Option String := none
deriving DecidableEq, Repr

/-- createBasicSubscriptionInfo from the status-check module: decode the
signed transaction (a failed decode keeps the all-default record), then
classify: a truthy revocationDate gives FREE/REFUNDED, an elapsed expiry
(strict comparison, nonzero expiresDate) gives FREE/EXPIRED, otherwise
TRIAL (offerType 1) or PREMIUM with ACTIVE and autoRenewEnabled true.
subscriptionType is "yearly"/"monthly" by substring match on productId and
stays null otherwise.  hasUsedTrial is left at its default false (the
source comments that the webhook maintains the accurate value). -/
def createBasicSubscriptionInfo (signedTransactionInfo : JWS RawPayload)
    (now : Nat) : BasicInfo :=
  match decodeJWS signedTransactionInfo with
  | none => {}
  | some transactionData =>
    let expiresDate := transactionData.expiresDate.getD 0
    let isExpired := expiresDate > 0 && expiresDate < now
    let isRevoked := natTruthy transactionData.revocationDate
    let isCurrentTransactionTrial := transactionData.offerType == some 1
    let base : BasicInfo :=
      { originalTransactionId := transactionData.originalTransactionId
        lastTransactionId := transactionData.transactionId
        productId := transactionData.productId
        expirationDate := some expiresDate
        purchaseDate := transactionData.purchaseDate
        offerType :=
          if natTruthy transactionData.offerType then transactionData.offerType
          else none
        appAccountToken :=
          if strTruthy transactionData.appAccountToken then
            transactionData.appAccountToken
          else none
        subscriptionType :=
          match transactionData.productId with
          | some p =>
            if strIncludes p "yearly" then some "yearly"
            else if strIncludes p "monthly" then some "monthly"
            else none
          | none => none
        hasFamilySharedSubscription :=
          transactionData.inAppOwnershipType == some "FAMILY_SHARED"
        environment := transactionData.environment
        subscriptionStartDate := transactionData.originalPurchaseDate }
    if isRevoked then
      { base with entitlement := .free, subscriptionStatus := .refunded }
    else if isExpired then
      { base with entitlement := .free, subscriptionStatus := .expired }
    else if isCurrentTransactionTrial then
      { base with entitlement := .trial, subscriptionStatus := .active,
                  autoRenewEnabled := true }
    else
      { base with entitlement := .premium, subscriptionStatus := .active,
                  autoRenewEnabled := true }

/-- Unified subscription record as stored in the user document's
subscriptionData field by the webhook and the sync/status endpoints. -/
structure SubData where
  originalTransactionId : Option String := none
  lastTransactionId : Option String := none
  entitlement : Option Entitlement := none
  subscriptionStatus : Option SubStatus := none
  hasUsedTrial : Option Bool := none
  autoRenewEnabled : Option Bool := none
  subscriptionType : Option String := none
  expirationDate : Option Nat := none
  lastUpdatedAt : Option Nat := none
  lastUpdateSource : Option String := none
  dataSource : Option String := none
  lastNotificationType : Option String := none
  lastNotificationSubtype : Option String := none
deriving DecidableEq, Repr

/-- Legacy per-user subscription object (the old storage location, read by
the webhook as userData.subscription and spread into the update). -/
structure LegacySubscription where
  originalTransactionId : Option String := none
  plan : Option String := none
  status : Option String := none
  startDate : Option Nat := none
  expiryDate : Option Nat := none
  autoRenewStatus : Option Bool := none
  isCancelled : Option Bool := none
  isFreeTrial : Option Bool := none
deriving DecidableEq, Repr

/-- A user document in the users collection: the unified subscriptionData
record and the legacy subscription object (either may be absent). -/
structure UserDoc where
  id : String
  subscriptionData : Option SubData := none
  subscription : Option LegacySubscription := none
deriving DecidableEq, Repr

/-- The users collection. -/
structure Store where
  users : List UserDoc
deriving DecidableEq, Repr

/-- The webhook's user lookup: query the new structure
(subscriptionData.originalTransactionId) first, then fall back to the
legacy structure (subscription.originalTransactionId); each query takes
the first match (limit 1). -/
def findUserByOriginalTransactionId (store : Store) (otid : String) :
    Option UserDoc :=
  match store.users.find?
      (fun u => u.subscriptionData.bind (·.originalTransactionId)
        == some otid) with
  | some u => some u
  | none =>
    store.users.find?
      (fun u => u.subscription.bind (·.originalTransactionId) == some otid)

/-- determinePlanFromProduct from the webhook module. -/
def determinePlanFromProduct (productId : String) : String :=
  if strIncludes productId "monthly" then "premium"
  else if strIncludes productId "yearly" then "premium"
  else if strIncludes productId "trial" then "premium"
  else "free"

/-- The App Store transaction-history call, as an oracle: `none` models a
call whose result has success = false, `some txs` a successful call whose
data.signedTransactions is `txs`. -/
def HistoryApi : Type := String → Option (List (JWS RawPayload))

/-- Loop body of checkTrialUsageFromHistory in the webhook module.  The
source tests decodedTransaction.success, but decodeJWS returns the parsed
transaction payload itself (or null), never a success/data wrapper: a
decoded payload has no success property, so the test is falsy and every
decoded transaction is skipped; a null decode makes the property access
throw, and the surrounding catch turns that into false for the whole
function. -/
def checkTrialLoop : List (JWS RawPayload) → Bool
  | [] => false
  | signedTransaction :: rest =>
    match decodeJWS signedTransaction with
    | none => false
    | some _ => checkTrialLoop rest

/-- checkTrialUsageFromHistory from the webhook module: fetch the full
transaction history and scan it for a trial transaction; a failed fetch
returns false. -/
def checkTrialUsageFromHistory (api : HistoryApi)
    (originalTransactionId : String) : Bool :=
  match api originalTransactionId with
  | none => false
  | some transactions => checkTrialLoop transactions

/-- Result record of convertToNewStructure in the webhook module.  The
source renders expirationDate as a decimal string and processNotification
re-parses it with parseInt; the numeric value is kept here. -/
structure CacheData where
  entitlement : Entitlement
  subscriptionStatus : SubStatus
  hasUsedTrial : Bool
  autoRenewEnabled : Bool
  subscriptionType : Option String
  expirationDate : Option Nat
deriving DecidableEq, Repr

/-- convertToNewStructure from the webhook module: recompute the unified
record from the merged legacy-style update.  hasUsedTrial is taken from
checkTrialUsageFromHistory whenever an originalTransactionId is present
(never from the previously stored record); the entitlement is recomputed
from expiry/plan/trial flags; the status honours revoked/expired/
cancelled, and specific notification types override it at the end. -/
def convertToNewStructure (api : HistoryApi) (su : LegacySubscription)
    (notificationType : Option String) (now : Nat) : CacheData :=
  let hasUsedTrial :=
    if strTruthy su.originalTransactionId then
      checkTrialUsageFromHistory api (su.originalTransactionId.getD "")
    else false
  let expiryTime := su.expiryDate.getD 0
  let isExpired := expiryTime > 0 && expiryTime < now
  let entitlement1 : Entitlement :=
    if !isExpired && su.status == some "active" then
      if su.isFreeTrial.getD false then .trial
      else if su.plan == some "premium" then .premium
      else .free
    else .free
  let statusStep : Entitlement × SubStatus :=
    if su.status == some "revoked" then (.free, .refunded)
    else if su.status == some "expired" then (.free, .expired)
    else if su.isCancelled.getD false && su.status == some "active" then
      (entitlement1, .cancelling)
    else if su.status == some "active" then (entitlement1, .active)
    else (entitlement1, .active)
  let final : Entitlement × SubStatus :=
    if notificationType == some "SUBSCRIBED" then (statusStep.1, .active)
    else if notificationType == some "DID_CHANGE_RENEWAL_STATUS" then
      if su.autoRenewStatus.getD false then (statusStep.1, .active)
      else (statusStep.1, .cancelling)
    else if notificationType == some "EXPIRED" then (.free, .expired)
    else if notificationType == some "REFUND" then (.free, .refunded)
    else statusStep
  { entitlement := final.1
    subscriptionStatus := final.2
    hasUsedTrial := hasUsedTrial
    autoRenewEnabled := su.autoRenewStatus.getD false
    subscriptionType :=
      if su.plan == some "premium" then some "monthly" else some "monthly"
    expirationDate := su.expiryDate }

/-- The data object of a decoded notification payload. -/
structure NotifData where
  signedTransactionInfo : Option (JWS RawPayload) := none
  signedRenewalInfo : Option (JWS RenewalPayload) := none
deriving DecidableEq, Repr

/-- Decoded outer notification payload. -/
structure NotificationPayload where
  notificationType : Option String := none
  subtype : Option String := none
  data : Option NotifData := none
deriving DecidableEq, Repr

/-- The per-notification-type switch of processNotification: merge the
type-specific fields over the current (legacy) subscription object.
`none` models the default branch, which returns without writing.
(purchaseDate/expiresDate are required by Timestamp.fromMillis in the
source when these branches run; the parsed values are carried through.) -/
def applyNotificationType (notificationType : Option String)
    (transaction : RawPayload) (renewal : Option RenewalPayload)
    (su : LegacySubscription) : Option LegacySubscription :=
  if notificationType == some "SUBSCRIBED" then
    some { su with
      plan := some (determinePlanFromProduct (transaction.productId.getD ""))
      status := some "active"
      startDate := transaction.purchaseDate
      expiryDate := transaction.expiresDate
      autoRenewStatus := some (match renewal with
        | some r => r.autoRenewStatus == some 1
        | none => true)
      isCancelled := some false
      isFreeTrial := some (transaction.offerType == some 1) }
  else if notificationType == some "DID_RENEW" then
    some { su with
      status := some "active"
      expiryDate := transaction.expiresDate
      autoRenewStatus := some (match renewal with
        | some r => r.autoRenewStatus == some 1
        | none => true)
      isCancelled := some false }
  else if notificationType == some "DID_CHANGE_RENEWAL_STATUS" then
    let autoRenewStatus := match renewal with
      | some r => r.autoRenewStatus == some 1
      | none => false
    some { su with
      autoRenewStatus := some autoRenewStatus
      isCancelled := some (!autoRenewStatus) }
  else if notificationType == some "EXPIRED" then
    some { su with
      status := some "expired"
      autoRenewStatus := some false
      isCancelled := some true }
  else if notificationType == some "GRACE_PERIOD_EXPIRED" then
    some { su with
      status := some "expired"
      autoRenewStatus := some false
      isCancelled := some true }
  else if notificationType == some "REVOKE" then
    some { su with
      status := some "revoked"
      autoRenewStatus := some false
      isCancelled := some true }
  else none

/-- processNotification from the webhook module: locate the owning user by
originalTransactionId (new structure first, legacy fallback), merge the
type-specific update over the legacy subscription object, convert it to
the unified structure and overwrite the user's subscriptionData with it.
An unknown user or an unhandled notification type returns with the store
untouched.  `none` models the thrown exception when the transaction has no
originalTransactionId (the store rejects undefined query values), which
the HTTP handler maps to a 500. -/
def processNotification (api : HistoryApi) (now : Nat)
    (notificationType : Option String) (subtype : Option String)
    (transaction : RawPayload) (renewal : Option RenewalPayload)
    (store : Store) : Option Store :=
  match transaction.originalTransactionId with
  | none => none
  | some originalTransactionId =>
    match findUserByOriginalTransactionId store originalTransactionId with
    | none => some store
    | some userDoc =>
      let currentSubscription := userDoc.subscription.getD {}
      let su0 : LegacySubscription :=
        { currentSubscription with
          originalTransactionId := some originalTransactionId }
      match applyNotificationType notificationType transaction renewal su0 with
      | none => some store
      | some subscriptionUpdate =>
        let cacheData :=
          convertToNewStructure api subscriptionUpdate notificationType now
        let unified : SubData :=
          { originalTransactionId := some originalTransactionId
            lastTransactionId := transaction.transactionId
            entitlement := some cacheData.entitlement
            subscriptionStatus := some cacheData.subscriptionStatus
            hasUsedTrial := some cacheData.hasUsedTrial
            autoRenewEnabled := some cacheData.autoRenewEnabled
            subscriptionType := cacheData.subscriptionType
            expirationDate := cacheData.expirationDate
            lastUpdatedAt := some now
            lastUpdateSource := some "appStoreNotifications"
            dataSource := some "webhook-real-time"
            lastNotificationType := notificationType
            lastNotificationSubtype := subtype }
        some { users := store.users.map (fun u =>
          if u.id == userDoc.id then { u with subscriptionData := some unified }
          else u) }

/-- An inbound webhook HTTP request as the handler sees it. -/
structure WebhookRequest where
  method : String
  contentType : Option String := none
  signedPayload : Option (JWS NotificationPayload) := none
deriving DecidableEq, Repr

/-- The appStoreNotifications HTTP handler: method and content-type
checks, decode of the outer notification envelope and the inner
transaction envelope, bundle-id check, then processNotification; the
result is the HTTP status code and the resulting store.  A thrown error
inside processing yields 500 with the store untouched. -/
def appStoreNotifications (api : HistoryApi) (now : Nat) (bundleId : String)
    (req : WebhookRequest) (store : Store) : Nat × Store :=
  if req.method ≠ "POST" then (405, store)
  else if !(match req.contentType with
            | none => false
            | some ct => strIncludes ct "application/json") then (400, store)
  else
    match req.signedPayload with
    | none => (400, store)
    | some signedPayload =>
      match decodeJWS signedPayload with
      | none => (400, store)
      | some decodedPayload =>
        match decodedPayload.data.bind (·.signedTransactionInfo) with
        | none => (400, store)
        | some transactionInfo =>
          match decodeJWS transactionInfo with
          | none => (400, store)
          | some decodedTransaction =>
            let decodedRenewal :=
              (decodedPayload.data.bind (·.signedRenewalInfo)).bind
                (fun r => decodeJWS r)
            if decodedTransaction.bundleId ≠ some bundleId then (400, store)
            else
              match processNotification api now
                  decodedPayload.notificationType decodedPayload.subtype
                  decodedTransaction decodedRenewal store with
              | none => (500, store)
              | some store2 => (200, store2)

/-- Cache TTL from the status-check module (10 minutes). -/
def CACHE_DURATION_MS : Nat := 10 * 60 * 1000

/-- Duplicate-call suppression window from the status-check module
(5 minutes). -/
def DUPLICATE_CALL_PREVENTION_MS : Nat := 5 * 60 * 1000

/-- getCachedSubscriptionStatus: the stored subscriptionData counts as a
cache entry only when it exists and carries a lastUpdatedAt stamp. -/
def getCachedSubscriptionStatus (subscriptionData : Option SubData) :
    Option SubData :=
  match subscriptionData with
  | some s => if s.lastUpdatedAt.isSome then some s else none
  | none => none

/-- isCacheExpired: the cache age now - lastUpdatedAt must not exceed
CACHE_DURATION_MS; a record without the stamp counts as expired.
(A clock running behind the stamp gives a negative age in the source,
which also compares as not expired; Nat subtraction agrees.) -/
def isCacheExpired (cachedData : SubData) (now : Nat) : Bool :=
  match cachedData.lastUpdatedAt with
  | none => true
  | some t => now - t > CACHE_DURATION_MS

/-- The getTransactionInfo remote call, as an oracle: `none` models a call
whose result has success = false, `some jws` a successful call whose data
carries the given signedTransactionInfo. -/
def TransactionApi : Type := String → Option (JWS RawPayload)

/-- fetchFreshSubscriptionStatus from the status-check module: read the
stored identifiers, prefer lastTransactionId falling back on
originalTransactionId, call getTransactionInfo and build the basic record
from its signed transaction.  The Bool records whether the remote
marketplace call was made. -/
def fetchFreshSubscriptionStatus (api : TransactionApi)
    (subscriptionData : Option SubData) (now : Nat) :
    Option BasicInfo × Bool :=
  match subscriptionData with
  | none => (none, false)
  | some s =>
    let lastTransactionId :=
      if strTruthy s.lastTransactionId then s.lastTransactionId
      else s.originalTransactionId
    if !strTruthy lastTransactionId then (none, false)
    else
      match api (lastTransactionId.getD "") with
      | none => (none, true)
      | some signedTransactionInfo =>
        (some (createBasicSubscriptionInfo signedTransactionInfo now), true)

/-- The subscription payload of a status-check response: the canned
internal-test-account record, the stored record, a freshly fetched
record, or the default record for a new user. -/
inductive RespSub where
  | testAccount
  | stored (s : SubData)
  | fresh (b : BasicInfo)
  | defaultNew
deriving DecidableEq, Repr

/-- A status-check response together with whether the remote marketplace
gateway was contacted while producing it. -/
structure CheckResult where
  success : Bool
  subscription : Option RespSub
  dataSource : String
  remoteCalled : Bool
deriving DecidableEq, Repr

/-- The per-request inputs of subCheckSubscriptionStatus: the caller's
authentication, the forceRefresh flag, the clock, the process-local
last-call timestamp for this user, whether the caller's email matches an
internal test account, and the user's stored subscriptionData. -/
structure CheckInput where
  authed : Bool := true
  forceRefresh : Bool := false
  now : Nat := 0
  lastCallTime : Option Nat := none
  isTestAccount : Bool := false
  subscriptionData : Option SubData := none
deriving DecidableEq, Repr

/-- Steps 1-5 of subCheckSubscriptionStatus after the duplicate-call
check: test account, cache freshness (skipped under forceRefresh), remote
fetch, default record for new users. -/
def checkStatusMainFlow (api : TransactionApi) (inp : CheckInput) :
    CheckResult :=
  if inp.isTestAccount then
    { success := true, subscription := some .testAccount,
      dataSource := "test-account", remoteCalled := false }
  else
    let cachedFresh : Option SubData :=
      if inp.forceRefresh then none
      else
        match getCachedSubscriptionStatus inp.subscriptionData with
        | some c => if !isCacheExpired c inp.now then some c else none
        | none => none
    match cachedFresh with
    | some c =>
      { success := true, subscription := some (.stored c),
        dataSource := "cache", remoteCalled := false }
    | none =>
      let fetched := fetchFreshSubscriptionStatus api inp.subscriptionData
        inp.now
      match fetched.1 with
      | some freshData =>
        { success := true, subscription := some (.fresh freshData),
          dataSource := if inp.forceRefresh then "force-refresh"
            else "fresh-api",
          remoteCalled := fetched.2 }
      | none =>
        { success := true, subscription := some .defaultNew,
          dataSource := "default", remoteCalled := fetched.2 }

/-- subCheckSubscriptionStatus from the status-check module: reject
unauthenticated callers (the catch turns the throw into a failure
response), then — without forceRefresh — answer from the cache when the
same user called within DUPLICATE_CALL_PREVENTION_MS, and otherwise run
the main flow. -/
def subCheckSubscriptionStatus (api : TransactionApi) (inp : CheckInput) :
    CheckResult :=
  if !inp.authed then
    { success := false, subscription := none, dataSource := "error",
      remoteCalled := false }
  else
    let duplicate := !inp.forceRefresh && natTruthy inp.lastCallTime &&
      inp.now - inp.lastCallTime.getD 0 < DUPLICATE_CALL_PREVENTION_MS
    if duplicate then
      match getCachedSubscriptionStatus inp.subscriptionData with
      | some cachedData =>
        { success := true, subscription := some (.stored cachedData),
          dataSource := "duplicate-call-prevention", remoteCalled := false }
      | none => checkStatusMainFlow api inp
    else checkStatusMainFlow api inp

/-- Primitive JavaScript value of a subscriptionData field, as the store
adapter sees it; `undefined` is an explicitly present undefined value. -/
inductive JsVal where
  | undefined
  | null
  | str (s : String)
  | num (n : Int)
  | boolean (b : Bool)
  | timestamp (t : Nat)
deriving DecidableEq, Repr

/-- A flat JavaScript object: association list of named primitive values
(a real object has no duplicate keys; theorems assume key uniqueness). -/
abbrev Obj : Type := List (String × JsVal)

/-- A field value of a user document: a primitive or a nested map such as
subscriptionData. -/
inductive DocVal where
  | prim (v : JsVal)
  | objv (fields : Obj)
deriving DecidableEq, Repr

/-- A user document: association list of named field values. -/
abbrev Doc : Type := List (String × DocVal)

/-- Property read on a flat object; an absent key reads as undefined. -/
def objGet (o : Obj) (k : String) : JsVal :=
  match o.find? (fun kv => kv.1 == k) with
  | some kv => kv.2
  | none => .undefined

/-- Property write on a flat object: replace in place when present,
append otherwise. -/
def objSet (o : Obj) (k : String) (v : JsVal) : Obj :=
  if o.any (fun kv => kv.1 == k) then
    o.map (fun kv => if kv.1 == k then (k, v) else kv)
  else o ++ [(k, v)]

/-- Field read on a document. -/
def docGet (d : Doc) (k : String) : Option DocVal :=
  (d.find? (fun kv => kv.1 == k)).map (·.2)

/-- Firestore update with a top-level field path: replace in place when
present, append otherwise. -/
def docSet (d : Doc) (k : String) (v : DocVal) : Doc :=
  if d.any (fun kv => kv.1 == k) then
    d.map (fun kv => if kv.1 == k then (k, v) else kv)
  else d ++ [(k, v)]

/-- Whether a value is dropped by the store adapter's cleaning pass
(undefined or null). -/
def JsVal.isUnset : JsVal → Bool
  | .undefined => true
  | .null => true
  | _ => false

/-- The subscriptionData object built by updateUnifiedSubscriptionData in
subscriptionDataManager.js: the caller's updates spread first, then the
stamped metadata (lastUpdatedAt = serverTimestamp, lastUpdateSource,
dataVersion = "v2"), then every undefined or null field removed. -/
def cleanSubscriptionData (updates : Obj) (now : Nat) (source : String) :
    Obj :=
  let subscriptionData :=
    objSet (objSet (objSet updates "lastUpdatedAt" (.timestamp now))
      "lastUpdateSource" (.str source)) "dataVersion" (.str "v2")
  subscriptionData.filter (fun kv => !kv.2.isUnset)

/-- updateUnifiedSubscriptionData from subscriptionDataManager.js: the
Firestore update payload carries the single key subscriptionData holding
the cleaned object. -/
def updateUnifiedSubscriptionData (userDoc : Doc) (updates : Obj)
    (now : Nat) (source : String) : Doc :=
  docSet userDoc "subscriptionData"
    (.objv (cleanSubscriptionData updates now source))

/-! Concrete inputs used by the counterexamples and witnesses below. -/

/-- A stored user whose record already has hasUsedTrial = true. -/
def c1User : UserDoc :=
  { id := "user1"
    subscriptionData := some
      { originalTransactionId := some "orig1"
        lastTransactionId := some "tx1"
        entitlement := some .premium
        subscriptionStatus := some .active
        hasUsedTrial := some true
        lastUpdatedAt := some 100 } }

/-- A one-user store holding that record. -/
def c1Store : Store := { users := [c1User] }

/-- A history oracle whose history for every lineage contains a decodable
free-trial transaction (offerType 5). -/
def c1TrialHistoryApi : HistoryApi := fun _ =>
  some [{ partCount := 3
          payloadParse := some
            { transactionId := some "tx0"
              originalTransactionId := some "orig1"
              productId := some "premium_monthly_trial"
              offerType := some 5 } }]

/-- A non-trial renewal transaction for the same lineage. -/
def c1Transaction : RawPayload :=
  { transactionId := some "tx2"
    originalTransactionId := some "orig1"
    productId := some "premium_monthly"
    purchaseDate := some 200
    expiresDate := some 999999999
    bundleId := some "com.pikabook.app" }

/-- A well-formed SUBSCRIBED webhook request carrying that transaction. -/
def c1Request : WebhookRequest :=
  { method := "POST"
    contentType := some "application/json"
    signedPayload := some
      { partCount := 3
        payloadParse := some
          { notificationType := some "SUBSCRIBED"
            subtype := some "INITIAL_BUY"
            data := some
              { signedTransactionInfo := some
                  { partCount := 3, payloadParse := some c1Transaction } } } } }

/-- An unexpired, revoked, non-trial premium input for determinePlanStatus. -/
def c2Input : PlanStatusInput :=
  { currentPlan := some "premium_monthly"
    isActive := true
    isFreeTrial := false
    autoRenewStatus := true
    expirationDate := some 2000
    revocationDate := some 500 }

/-- A non-revoked transaction whose expiry equals the observation time. -/
def c3Transaction : RawPayload :=
  { transactionId := some "t1"
    originalTransactionId := some "o1"
    productId := some "premium_monthly"
    expiresDate := some 1000 }

/-- The same transaction type used by the expiry-boundary witness. -/
def c3WitnessTransaction : RawPayload :=
  { transactionId := some "t1"
    originalTransactionId := some "o1"
    productId := some "premium_yearly"
    expiresDate := some 5000 }

/-- A stored record fresh enough for the cache (stamped at 1000). -/
def c4FreshSub : SubData :=
  { originalTransactionId := some "orig4"
    lastTransactionId := some "tx4"
    entitlement := some .premium
    lastUpdatedAt := some 1000 }

/-- A payload with identifiers present but no productId. -/
def c7Payload : RawPayload :=
  { transactionId := some "t1"
    originalTransactionId := some "o1" }

/-- A three-part envelope that decodes to that payload. -/
def c7Envelope : JWS RawPayload :=
  { partCount := 3, payloadParse := some c7Payload }

/-- A complete payload used by the decoder witness. -/
def c7OkPayload : RawPayload :=
  { transactionId := some "t1"
    originalTransactionId := some "o1"
    productId := some "premium_monthly" }

/-- A three-part envelope that decodes to the complete payload. -/
def c7OkEnvelope : JWS RawPayload :=
  { partCount := 3, payloadParse := some c7OkPayload }

/-- A transaction whose productId contains neither "yearly" nor
"monthly". -/
def c8Transaction : RawPayload :=
  { transactionId := some "t8"
    originalTransactionId := some "o8"
    productId := some "com.pikabook.weekly"
    expiresDate := some 2000 }

/-- An update object with one kept field and one null field. -/
def c9Updates : Obj :=
  [("entitlement", .str "premium"), ("subscriptionType", .null)]

/-- A user document with an unrelated field and an old subscriptionData. -/
def c9UserDoc : Doc :=
  [("displayName", .prim (.str "bob")), ("subscriptionData", .objv [])]

/-- A revoked, unexpired trial transaction. -/
def c2Transaction : RawPayload :=
  { transactionId := some "t2"
    originalTransactionId := some "o2"
    productId := some "premium_monthly"
    expiresDate := some 2000
    offerType := some 1
    revocationDate := some 500 }

/-- A remote transaction-info oracle whose calls fail. -/
def c4Api : TransactionApi := fun _ => none

/-- A status-check request 500ms after the cache stamp. -/
def c4FreshInput : CheckInput := { now := 1500, subscriptionData := some c4FreshSub }

/-- A status-check request one millisecond past the cache TTL. -/
def c4StaleInput : CheckInput :=
  { now := 1000 + CACHE_DURATION_MS + 1, subscriptionData := some c4FreshSub }

/-- A stored record stamped at 42 for the duplicate-suppression witness. -/
def c5Sub : SubData :=
  { originalTransactionId := some "orig5"
    lastTransactionId := some "tx5"
    entitlement := some .trial
    lastUpdatedAt := some 42 }

/-- A status-check request 1000ms after the user's previous call. -/
def c5Input : CheckInput :=
  { now := 100000, lastCallTime := some 99000, subscriptionData := some c5Sub }

/-- A remote transaction-info oracle for the duplicate-suppression
witness. -/
def c5Api : TransactionApi := fun _ => none

/-- A history oracle whose calls fail, for the unknown-user witness. -/
def c6Api : HistoryApi := fun _ => none

/-- A renewal transaction for a lineage unknown to the store. -/
def c6Transaction : RawPayload :=
  { transactionId := some "t6"
    originalTransactionId := some "orig6"
    productId := some "premium_yearly"
    expiresDate := some 5000
    bundleId := some "bundle6" }

/-- The decoded notification carrying that transaction. -/
def c6Notification : NotificationPayload :=
  { notificationType := some "DID_RENEW"
    data := some
      { signedTransactionInfo := some
          { partCount := 3, payloadParse := some c6Transaction } } }

/-- A well-formed webhook request for the unknown lineage. -/
def c6Request : WebhookRequest :=
  { method := "POST"
    contentType := some "application/json"
    signedPayload := some
      { partCount := 3, payloadParse := some c6Notification } }

/-- A store with no users at all. -/
def c6Store : Store := { users := [] }

/-- The loop of checkTrialUsageFromHistory never returns true: every
successfully decoded transaction is skipped by the success-wrapper test
and a failed decode aborts with false. -/
theorem checkTrialLoop_eq_false (l : List (JWS RawPayload)) :
    checkTrialLoop l = false := by
  induction l with
  | nil => rfl
  | cons hd tl ih =>
    unfold checkTrialLoop
    cases decodeJWS hd <;> simp [ih]

/-- Claim C10: for every transaction-history input, including histories
containing a decodable trial transaction (offerType 5), the webhook's
history-based trial check checkTrialUsageFromHistory yields false: the
source tests decodedTransaction.success, but decodeJWS returns the parsed
payload directly (never a success/data wrapper), so every transaction is
skipped and the only reachable non-error outcome is false. -/
theorem c10_history_trial_check_always_false :
    (∀ (api : HistoryApi) (originalTransactionId : String),
      checkTrialUsageFromHistory api originalTransactionId = false) ∧
    checkTrialUsageFromHistory
      (fun _ => some [{ partCount := 3
                        payloadParse := some { offerType := some 5 } }])
      "lineage" = false := by
  constructor
  · intro api originalTransactionId
    unfold checkTrialUsageFromHistory
    cases api originalTransactionId with
    | none => rfl
    | some txs => exact checkTrialLoop_eq_false txs
  · rfl

/-- Counterexample to claim C7: the webhook decoder decodeJWS succeeds on
a well-formed three-part envelope whose payload lacks the required field
productId, contradicting the claim that decode fails whenever a required
field is absent. -/
theorem c7_counterexample :
    decodeJWS c7Envelope = some c7Payload ∧ c7Payload.productId = none := by
  decide

/-- Claim C7 (amended): verifyAndDecodeJWS succeeds with the decoded
payload exactly when the envelope has three parts, both header and
payload parse, and the required fields transactionId,
originalTransactionId and productId are present (truthy); the webhook
decoder decodeJWS fails exactly when the part count differs from 3 or the
payload does not parse, performing no required-field check.  Neither has
side effects (both are pure in this embedding). -/
theorem c7_decoder_failure_semantics (jws : JWS RawPayload) :
    (∀ p : RawPayload, verifyAndDecodeJWS jws = .ok p ↔
      (jws.partCount = 3 ∧ jws.headerOk = true ∧
       jws.payloadParse = some p ∧
       strTruthy p.transactionId = true ∧
       strTruthy p.originalTransactionId = true ∧
       strTruthy p.productId = true)) ∧
    (decodeJWS jws = none ↔
      (jws.partCount ≠ 3 ∨ jws.payloadParse = none)) := by
  obtain ⟨pc, hok, pl⟩ := jws
  constructor
  · intro p
    cases pl with
    | none =>
      simp only [verifyAndDecodeJWS]
      split_ifs <;> simp_all
    | some q =>
      simp only [verifyAndDecodeJWS]
      split_ifs <;> simp_all <;> try (rintro rfl; simp_all)
  · constructor
    · intro h
      unfold decodeJWS at h
      split_ifs at h with h1
      · exact Or.inl h1
      · exact Or.inr h
    · intro h
      unfold decodeJWS
      rcases h with h | h
      · simp [h]
      · split_ifs
        · rfl
        · exact h

/-- Witness for claim C7's theorem: a complete envelope is accepted by
verifyAndDecodeJWS and a two-part envelope is rejected by decodeJWS. -/
theorem c7_decoder_failure_semantics_witness :
    verifyAndDecodeJWS c7OkEnvelope = .ok c7OkPayload ∧
    decodeJWS (⟨2, true, some c7OkPayload⟩ : JWS RawPayload) = none :=
  ⟨((c7_decoder_failure_semantics c7OkEnvelope).1 c7OkPayload).2 (by decide),
   (c7_decoder_failure_semantics ⟨2, true, some c7OkPayload⟩).2.2
     (Or.inl (by decide))⟩

/-- Counterexample to claim C8: for a productId containing neither
"yearly" nor "monthly", analyzeJWSTransaction resolves subscriptionType
to "monthly", not to null as the claim states. -/
theorem c8_counterexample :
    strIncludes "com.pikabook.weekly" "yearly" = false ∧
    strIncludes "com.pikabook.weekly" "monthly" = false ∧
    (analyzeJWSTransaction c8Transaction 1000).subscriptionType =
      some "monthly" := by
  decide

/-- Every branch of analyzeJWSTransaction carries the same
subscriptionType, derived from the productId alone. -/
theorem analyzeJWS_subscriptionType (t : RawPayload) (now : Nat) :
    (analyzeJWSTransaction t now).subscriptionType =
      match t.productId with
      | some p =>
        if strIncludes p "yearly" then some "yearly" else some "monthly"
      | none => some "monthly" := by
  unfold analyzeJWSTransaction
  dsimp only
  split_ifs <;> rfl

/-- Every branch of createBasicSubscriptionInfo carries the same
subscriptionType, derived from the productId alone. -/
theorem createBasic_subscriptionType (jws : JWS RawPayload) (t : RawPayload)
    (now : Nat) (hjws : decodeJWS jws = some t) :
    (createBasicSubscriptionInfo jws now).subscriptionType =
      match t.productId with
      | some p =>
        if strIncludes p "yearly" then some "yearly"
        else if strIncludes p "monthly" then some "monthly" else none
      | none => none := by
  unfold createBasicSubscriptionInfo
  rw [hjws]
  dsimp only
  split_ifs <;> rfl

/-- Claim C8 (amended): createBasicSubscriptionInfo derives
subscriptionType as the claim states (yearly / monthly by substring, null
otherwise); analyzeJWSTransaction derives "yearly" when the productId
contains "yearly" and "monthly" for every other productId, never null. -/
theorem c8_subscription_type_derivation (t : RawPayload) (p : String)
    (now : Nat) (hp : t.productId = some p) :
    ((analyzeJWSTransaction t now).subscriptionType =
      if strIncludes p "yearly" then some "yearly" else some "monthly") ∧
    ∀ (jws : JWS RawPayload), decodeJWS jws = some t →
      (createBasicSubscriptionInfo jws now).subscriptionType =
        (if strIncludes p "yearly" then some "yearly"
         else if strIncludes p "monthly" then some "monthly" else none) := by
  constructor
  · rw [analyzeJWS_subscriptionType, hp]
  · intro jws hjws
    rw [createBasic_subscriptionType jws t now hjws, hp]

/-- Witness for claim C8's theorem, applied to the weekly product id. -/
theorem c8_subscription_type_derivation_witness :
    (analyzeJWSTransaction c8Transaction 1000).subscriptionType =
      some "monthly" ∧
    (createBasicSubscriptionInfo
      (⟨3, true, some c8Transaction⟩ : JWS RawPayload) 1000).subscriptionType
      = none := by
  have h := c8_subscription_type_derivation c8Transaction "com.pikabook.weekly"
    1000 (by decide)
  exact ⟨h.1.trans (by decide),
    (h.2 ⟨3, true, some c8Transaction⟩ (by decide)).trans (by decide)⟩

/-- Counterexample to claim C2: determinePlanStatus, given a present
revocationDate on an unexpired active premium plan, resolves
subscriptionStatus = REFUNDED but leaves entitlement = PREMIUM, not FREE
as the claim states. -/
theorem c2_counterexample :
    natTruthy c2Input.revocationDate = true ∧
    (determinePlanStatus c2Input 1000).subscriptionStatus = .refunded ∧
    (determinePlanStatus c2Input 1000).entitlement = .premium := by
  decide

/-- Claim C2 (amended): a present (nonzero) revocationDate makes
analyzeJWSTransaction resolve entitlement = FREE and subscriptionStatus =
REFUNDED with priority over expiry and offer type; determinePlanStatus
gives revocation priority for the subscriptionStatus (REFUNDED) but
computes the entitlement independently of revocation. -/
theorem c2_revocation_precedence (t : RawPayload) (now : Nat)
    (h : natTruthy t.revocationDate = true) :
    ((analyzeJWSTransaction t now).entitlement = .free ∧
     (analyzeJWSTransaction t now).subscriptionStatus = .refunded) ∧
    ∀ (i : PlanStatusInput) (m : Nat), natTruthy i.revocationDate = true →
      (determinePlanStatus i m).subscriptionStatus = .refunded := by
  constructor
  · unfold analyzeJWSTransaction
    rw [h]
    exact ⟨rfl, rfl⟩
  · intro i m hi
    unfold determinePlanStatus
    rw [hi]
    rfl

/-- Witness for claim C2's theorem: a revoked unexpired trial transaction
and the revoked premium input. -/
theorem c2_revocation_precedence_witness :
    (analyzeJWSTransaction c2Transaction 1000).entitlement = .free ∧
    (analyzeJWSTransaction c2Transaction 1000).subscriptionStatus =
      .refunded ∧
    (determinePlanStatus c2Input 1000).subscriptionStatus = .refunded := by
  have h := c2_revocation_precedence c2Transaction 1000 (by decide)
  exact ⟨h.1.1, h.1.2, h.2 c2Input 1000 (by decide)⟩

/-- Counterexample to claim C3: at now = expiresDate (so now >= expiresDate
with a nonzero expiry and no revocation) the claim demands FREE/EXPIRED,
but analyzeJWSTransaction still resolves PREMIUM/ACTIVE: the source
compares strictly (expiresDate < now), so the classification flips just
after the expiry instant, not at it. -/
theorem c3_counterexample :
    c3Transaction.expiresDate = some 1000 ∧
    (analyzeJWSTransaction c3Transaction 1000).entitlement = .premium ∧
    (analyzeJWSTransaction c3Transaction 1000).subscriptionStatus = .active ∧
    ¬((analyzeJWSTransaction c3Transaction 1000).entitlement = .free ∧
      (analyzeJWSTransaction c3Transaction 1000).subscriptionStatus =
        .expired) := by
  decide

/-- Branch characterization of analyzeJWSTransaction's entitlement and
status fields. -/
theorem analyzeJWS_classification (t : RawPayload) (now : Nat) :
    (analyzeJWSTransaction t now).entitlement =
      (if natTruthy t.revocationDate then Entitlement.free
       else if t.expiresDate.getD 0 > 0 ∧ t.expiresDate.getD 0 < now then
         Entitlement.free
       else if t.offerType = some 5 ∨ t.offerType = some 1 then
         Entitlement.trial
       else Entitlement.premium) ∧
    (analyzeJWSTransaction t now).subscriptionStatus =
      (if natTruthy t.revocationDate then SubStatus.refunded
       else if t.expiresDate.getD 0 > 0 ∧ t.expiresDate.getD 0 < now then
         SubStatus.expired
       else SubStatus.active) := by
  unfold analyzeJWSTransaction
  dsimp only
  split_ifs <;> simp_all

/-- Branch characterization of createBasicSubscriptionInfo's entitlement
and status fields, on a decodable signed transaction. -/
theorem createBasic_classification (jws : JWS RawPayload) (t : RawPayload)
    (now : Nat) (hjws : decodeJWS jws = some t) :
    (createBasicSubscriptionInfo jws now).entitlement =
      (if natTruthy t.revocationDate then Entitlement.free
       else if t.expiresDate.getD 0 > 0 ∧ t.expiresDate.getD 0 < now then
         Entitlement.free
       else if t.offerType = some 1 then Entitlement.trial
       else Entitlement.premium) ∧
    (createBasicSubscriptionInfo jws now).subscriptionStatus =
      (if natTruthy t.revocationDate then SubStatus.refunded
       else if t.expiresDate.getD 0 > 0 ∧ t.expiresDate.getD 0 < now then
         SubStatus.expired
       else SubStatus.active) := by
  unfold createBasicSubscriptionInfo
  rw [hjws]
  dsimp only
  split_ifs <;> simp_all

/-- Claim C3 (amended): for every non-revoked transaction with a nonzero
expiresDate, both analyzeJWSTransaction and createBasicSubscriptionInfo
resolve FREE/EXPIRED when now > expiresDate and TRIAL-or-PREMIUM/ACTIVE
when now <= expiresDate: the classification flips immediately after the
expiry instant (the instant itself still counts as active), matching the
spec's plus/minus 1ms boundary cases. -/
theorem c3_expiry_boundary (t : RawPayload) (now e : Nat)
    (hrev : natTruthy t.revocationDate = false)
    (he : t.expiresDate = some e) (hnz : e ≠ 0) :
    ((now > e →
        (analyzeJWSTransaction t now).entitlement = .free ∧
        (analyzeJWSTransaction t now).subscriptionStatus = .expired) ∧
     (now ≤ e →
        ((analyzeJWSTransaction t now).entitlement = .trial ∨
         (analyzeJWSTransaction t now).entitlement = .premium) ∧
        (analyzeJWSTransaction t now).subscriptionStatus = .active)) ∧
    ∀ (jws : JWS RawPayload), decodeJWS jws = some t →
      ((now > e →
          (createBasicSubscriptionInfo jws now).entitlement = .free ∧
          (createBasicSubscriptionInfo jws now).subscriptionStatus =
            .expired) ∧
       (now ≤ e →
          ((createBasicSubscriptionInfo jws now).entitlement = .trial ∨
           (createBasicSubscriptionInfo jws now).entitlement = .premium) ∧
          (createBasicSubscriptionInfo jws now).subscriptionStatus =
            .active)) := by
  have hpos : 0 < e := Nat.pos_of_ne_zero hnz
  constructor
  · obtain ⟨hent, hstat⟩ := analyzeJWS_classification t now
    constructor
    · intro hgt
      simp [hent, hstat, hrev, he, hpos, hgt]
    · intro hle
      have hnlt : ¬ e < now := Nat.not_lt.mpr hle
      by_cases hP : (t.offerType = some 5 ∨ t.offerType = some 1)
      · simp [hent, hstat, hrev, he, hnlt, hP]
      · simp [hent, hstat, hrev, he, hnlt, hP]
  · intro jws hjws
    obtain ⟨hent, hstat⟩ := createBasic_classification jws t now hjws
    constructor
    · intro hgt
      simp [hent, hstat, hrev, he, hpos, hgt]
    · intro hle
      have hnlt : ¬ e < now := Nat.not_lt.mpr hle
      by_cases hP : t.offerType = some 1
      · simp [hent, hstat, hrev, he, hnlt, hP]
      · simp [hent, hstat, hrev, he, hnlt, hP]

/-- Witness for claim C3's theorem: a transaction expiring at 5000 is
FREE/EXPIRED when observed at 5001 and PREMIUM/ACTIVE when observed at
5000. -/
theorem c3_expiry_boundary_witness :
    ((analyzeJWSTransaction c3WitnessTransaction 5001).entitlement = .free ∧
     (analyzeJWSTransaction c3WitnessTransaction 5001).subscriptionStatus =
       .expired) ∧
    ((analyzeJWSTransaction c3WitnessTransaction 5000).entitlement = .trial ∨
     (analyzeJWSTransaction c3WitnessTransaction 5000).entitlement =
       .premium) ∧
    (analyzeJWSTransaction c3WitnessTransaction 5000).subscriptionStatus =
      .active := by
  have h1 := c3_expiry_boundary c3WitnessTransaction 5001 5000 (by decide)
    (by decide) (by decide)
  have h2 := c3_expiry_boundary c3WitnessTransaction 5000 5000 (by decide)
    (by decide) (by decide)
  exact ⟨h1.1.1 (by decide), h2.1.2 (by decide)⟩

/-- Claim C5: for every status-check request issued within
DUPLICATE_CALL_PREVENTION_MS (5 minutes) of the same user's previous
request, with no forced refresh and a stored (stamped) record on file,
the controller returns that record annotated as
duplicate-call-prevention and never contacts the remote marketplace
gateway during the request. -/
theorem c5_duplicate_call_suppression (api : TransactionApi)
    (inp : CheckInput) (c : SubData) (t : Nat)
    (hauth : inp.authed = true) (hforce : inp.forceRefresh = false)
    (hlast : inp.lastCallTime = some t) (ht : t ≠ 0)
    (hwin : inp.now - t < DUPLICATE_CALL_PREVENTION_MS)
    (hcache : getCachedSubscriptionStatus inp.subscriptionData = some c) :
    subCheckSubscriptionStatus api inp =
      { success := true, subscription := some (.stored c),
        dataSource := "duplicate-call-prevention",
        remoteCalled := false } := by
  unfold subCheckSubscriptionStatus
  rw [hauth]
  have hdup : (!inp.forceRefresh && natTruthy inp.lastCallTime &&
      decide (inp.now - inp.lastCallTime.getD 0 <
        DUPLICATE_CALL_PREVENTION_MS)) = true := by
    simp [hforce, hlast, natTruthy, ht, hwin]
  simp only [hdup, Bool.not_true, if_true, if_false]
  rw [hcache]
  rfl

/-- Witness for claim C5's theorem: a repeat call 1000ms after the
previous one returns the stored record without a remote call. -/
theorem c5_duplicate_call_suppression_witness :
    subCheckSubscriptionStatus c5Api c5Input =
      { success := true, subscription := some (.stored c5Sub),
        dataSource := "duplicate-call-prevention", remoteCalled := false } :=
  c5_duplicate_call_suppression c5Api c5Input c5Sub 99000 rfl rfl rfl
    (by decide) (by decide) (by decide)

/-- Claim C4: with a stored stamped record, no forced refresh, and an
authenticated non-test-account caller, a status check within
CACHE_DURATION_MS (10 minutes) of the stamp returns the stored record
with no remote marketplace call (whether or not the duplicate-call
window also applies); a status check at stamp + TTL + 1ms, outside the
duplicate-call window and with a transaction id on file, attempts the
remote getTransactionInfo call. -/
theorem c4_cache_ttl_boundary :
    (∀ (api : TransactionApi) (inp : CheckInput) (s : SubData) (t : Nat),
      inp.authed = true → inp.forceRefresh = false →
      inp.isTestAccount = false → inp.subscriptionData = some s →
      s.lastUpdatedAt = some t → inp.now - t < CACHE_DURATION_MS →
      (subCheckSubscriptionStatus api inp).subscription =
        some (.stored s) ∧
      (subCheckSubscriptionStatus api inp).remoteCalled = false) ∧
    (∀ (api : TransactionApi) (inp : CheckInput) (s : SubData) (t : Nat)
        (tid : String),
      inp.authed = true → inp.forceRefresh = false →
      inp.isTestAccount = false → inp.lastCallTime = none →
      inp.subscriptionData = some s → s.lastUpdatedAt = some t →
      inp.now = t + CACHE_DURATION_MS + 1 →
      (if strTruthy s.lastTransactionId then s.lastTransactionId
       else s.originalTransactionId) = some tid →
      tid ≠ "" →
      (subCheckSubscriptionStatus api inp).remoteCalled = true) := by
  constructor
  · intro api inp s t hauth hforce htest hsub hstamp hfresh
    have hc : getCachedSubscriptionStatus inp.subscriptionData = some s := by
      simp [getCachedSubscriptionStatus, hsub, hstamp]
    have hne : isCacheExpired s inp.now = false := by
      simp [isCacheExpired, hstamp]
      omega
    have hmain : checkStatusMainFlow api inp =
        { success := true, subscription := some (.stored s),
          dataSource := "cache", remoteCalled := false } := by
      unfold checkStatusMainFlow
      rw [htest, hforce]
      dsimp only
      rw [hc]
      dsimp only
      rw [hne]
      rfl
    unfold subCheckSubscriptionStatus
    rw [hauth]
    dsimp only
    by_cases hdup : (!inp.forceRefresh && natTruthy inp.lastCallTime &&
        decide (inp.now - inp.lastCallTime.getD 0 <
          DUPLICATE_CALL_PREVENTION_MS)) = true
    · rw [if_pos hdup, hc]
      exact ⟨rfl, rfl⟩
    · rw [if_neg hdup, hmain]
      exact ⟨rfl, rfl⟩
  · intro api inp s t tid hauth hforce htest hlast hsub hstamp hnow htid hnz
    have hc : getCachedSubscriptionStatus inp.subscriptionData = some s := by
      simp [getCachedSubscriptionStatus, hsub, hstamp]
    have hexp : isCacheExpired s inp.now = true := by
      simp [isCacheExpired, hstamp, hnow]
      omega
    have hstid : strTruthy (some tid) = true := by
      simp [strTruthy, hnz]
    have hfetch2 :
        (fetchFreshSubscriptionStatus api inp.subscriptionData inp.now).2 =
          true := by
      unfold fetchFreshSubscriptionStatus
      rw [hsub]
      dsimp only
      rw [htid, hstid]
      cases api ((some tid).getD "") <;> rfl
    have hdup : (!inp.forceRefresh && natTruthy inp.lastCallTime &&
        decide (inp.now - inp.lastCallTime.getD 0 <
          DUPLICATE_CALL_PREVENTION_MS)) = false := by
      simp [hlast, natTruthy]
    unfold subCheckSubscriptionStatus
    rw [hauth]
    dsimp only
    rw [hdup, if_neg Bool.false_ne_true]
    unfold checkStatusMainFlow
    rw [htest, hforce]
    dsimp only
    rw [hc]
    dsimp only
    rw [hexp]
    simp only [Bool.not_true]
    rw [if_neg Bool.false_ne_true]
    cases hf : (fetchFreshSubscriptionStatus api inp.subscriptionData
        inp.now).1 <;> simp [hf, hfetch2]

/-- Witness for claim C4's theorem: a check 500ms after the stamp returns
the stored record without a remote call; a check TTL + 1ms after the
stamp sets remoteCalled. -/
theorem c4_cache_ttl_boundary_witness :
    ((subCheckSubscriptionStatus c4Api c4FreshInput).subscription =
        some (.stored c4FreshSub) ∧
     (subCheckSubscriptionStatus c4Api c4FreshInput).remoteCalled = false) ∧
    (subCheckSubscriptionStatus c4Api c4StaleInput).remoteCalled = true :=
  ⟨c4_cache_ttl_boundary.1 c4Api c4FreshInput c4FreshSub 1000 rfl rfl rfl rfl
      rfl (by decide),
   c4_cache_ttl_boundary.2 c4Api c4StaleInput c4FreshSub 1000 "tx4" rfl rfl
      rfl rfl rfl rfl rfl (by decide) (by decide)⟩

/-- Claim C6: every verified, decodable webhook notification whose
transaction carries an originalTransactionId matching no user in the
store is answered with HTTP 200 and writes nothing: the resulting store
is unchanged. -/
theorem c6_unknown_user_webhook (api : HistoryApi) (now : Nat)
    (bundleId : String) (req : WebhookRequest) (store : Store)
    (sp : JWS NotificationPayload) (np : NotificationPayload)
    (ti : JWS RawPayload) (t : RawPayload) (ct otid : String)
    (hm : req.method = "POST")
    (hct : req.contentType = some ct)
    (hinc : strIncludes ct "application/json" = true)
    (hsp : req.signedPayload = some sp)
    (hdp : decodeJWS sp = some np)
    (hti : np.data.bind (·.signedTransactionInfo) = some ti)
    (hdt : decodeJWS ti = some t)
    (hb : t.bundleId = some bundleId)
    (hot : t.originalTransactionId = some otid)
    (huser : findUserByOriginalTransactionId store otid = none) :
    appStoreNotifications api now bundleId req store = (200, store) := by
  have hproc : processNotification api now np.notificationType np.subtype t
      ((np.data.bind (·.signedRenewalInfo)).bind (fun r => decodeJWS r))
      store = some store := by
    unfold processNotification
    rw [hot]
    dsimp only
    rw [huser]
  unfold appStoreNotifications
  rw [hm, hct, hsp]
  try dsimp only
  rw [if_neg (by simp), hinc]
  simp only [Bool.not_true]
  rw [if_neg Bool.false_ne_true, hdp]
  try dsimp only
  rw [hti]
  try dsimp only
  rw [hdt]
  try dsimp only
  rw [hb, if_neg (by simp), hproc]

/-- Witness for claim C6's theorem: a DID_RENEW notification for a
lineage absent from an empty store is acknowledged with 200 and leaves
the store unchanged. -/
theorem c6_unknown_user_webhook_witness :
    appStoreNotifications c6Api 777 "bundle6" c6Request c6Store =
      (200, c6Store) :=
  c6_unknown_user_webhook c6Api 777 "bundle6" c6Request c6Store
    ({ partCount := 3, payloadParse := some c6Notification })
    c6Notification
    ({ partCount := 3, payloadParse := some c6Transaction })
    c6Transaction "application/json" "orig6"
    rfl rfl (by decide) rfl rfl rfl rfl rfl rfl rfl

/-- Claim C1 (code bug): a user whose stored record has hasUsedTrial =
true receives a SUBSCRIBED webhook for the same lineage whose transaction
history contains a decodable trial transaction (offerType 5); the webhook
answers 200 but overwrites the record with hasUsedTrial = false — the
resolver recomputes the flag through checkTrialUsageFromHistory (which
can never return true) instead of reading the previous stored value and
ORing in the new evidence, so the claimed monotonicity fails. -/
theorem c1_monotonicity_violated :
    ((c1Store.users.head?.bind (·.subscriptionData)).bind (·.hasUsedTrial) =
      some true) ∧
    ((((c1TrialHistoryApi "orig1").getD []).head?.bind
        (fun j => decodeJWS j)).bind (·.offerType) = some 5) ∧
    (appStoreNotifications c1TrialHistoryApi 500 "com.pikabook.app"
        c1Request c1Store).1 = 200 ∧
    (((appStoreNotifications c1TrialHistoryApi 500 "com.pikabook.app"
        c1Request c1Store).2.users.head?.bind (·.subscriptionData)).bind
      (·.hasUsedTrial) = some false) := by
  decide

/-- Updating a present key by mapping leaves the updated entry findable. -/
theorem find_map_set {β : Type} (o : List (String × β)) (k : String) (v : β)
    (h : o.any (fun kv => kv.1 == k) = true) :
    (o.map (fun kv => if kv.1 == k then (k, v) else kv)).find?
      (fun kv => kv.1 == k) = some (k, v) := by
  induction o with
  | nil => simp at h
  | cons hd tl ih =>
    cases h1 : hd.1 == k with
    | true =>
      rw [List.map_cons, if_pos h1, List.find?_cons_of_pos _ (by simp)]
    | false =>
      rw [List.any_cons, h1, Bool.false_or] at h
      rw [List.map_cons, if_neg (by simp [h1]),
        List.find?_cons_of_neg _ (by simp [h1]), ih h]

/-- Appending an absent key leaves the appended entry findable. -/
theorem find_append_set {β : Type} (o : List (String × β)) (k : String)
    (v : β) (h : o.any (fun kv => kv.1 == k) = false) :
    (o ++ [(k, v)]).find? (fun kv => kv.1 == k) = some (k, v) := by
  induction o with
  | nil => simp
  | cons hd tl ih =>
    cases h1 : hd.1 == k with
    | true => rw [List.any_cons, h1, Bool.true_or] at h; cases h
    | false =>
      rw [List.any_cons, h1, Bool.false_or] at h
      rw [List.cons_append, List.find?_cons_of_neg _ (by simp [h1]), ih h]

/-- Updating key k by mapping does not disturb lookups of other keys. -/
theorem find_map_set_ne {β : Type} (o : List (String × β)) (k q : String)
    (v : β) (hq : q ≠ k) :
    (o.map (fun kv => if kv.1 == k then (k, v) else kv)).find?
      (fun kv => kv.1 == q) = o.find? (fun kv => kv.1 == q) := by
  induction o with
  | nil => rfl
  | cons hd tl ih =>
    cases h1 : hd.1 == k with
    | true =>
      have hk : hd.1 = k := eq_of_beq h1
      have hkq : (k == q) = false := beq_eq_false_iff_ne.mpr (Ne.symm hq)
      have hdq : (hd.1 == q) = false := by rw [hk]; exact hkq
      rw [List.map_cons, if_pos h1, List.find?_cons_of_neg _ (by simp [hkq]),
        List.find?_cons_of_neg _ (by simp [hdq]), ih]
    | false =>
      cases h2 : hd.1 == q with
      | true =>
        rw [List.map_cons, if_neg (by simp [h1]),
          List.find?_cons_of_pos _ (by simp [h2]),
          List.find?_cons_of_pos _ (by simp [h2])]
      | false =>
        rw [List.map_cons, if_neg (by simp [h1]),
          List.find?_cons_of_neg _ (by simp [h2]),
          List.find?_cons_of_neg _ (by simp [h2]), ih]

/-- Appending key k does not disturb lookups of other keys. -/
theorem find_append_ne {β : Type} (o : List (String × β)) (k q : String)
    (v : β) (hq : q ≠ k) :
    (o ++ [(k, v)]).find? (fun kv => kv.1 == q) =
      o.find? (fun kv => kv.1 == q) := by
  induction o with
  | nil => simp [beq_eq_false_iff_ne.mpr (Ne.symm hq)]
  | cons hd tl ih =>
    cases h2 : hd.1 == q with
    | true =>
      rw [List.cons_append, List.find?_cons_of_pos _ (by simp [h2]),
        List.find?_cons_of_pos _ (by simp [h2])]
    | false =>
      rw [List.cons_append, List.find?_cons_of_neg _ (by simp [h2]),
        List.find?_cons_of_neg _ (by simp [h2]), ih]

/-- Reading back the key just written. -/
theorem objGet_objSet_self (o : Obj) (k : String) (v : JsVal) :
    objGet (objSet o k v) k = v := by
  unfold objGet objSet
  by_cases h : o.any (fun kv => kv.1 == k) = true
  · rw [if_pos h, find_map_set o k v h]
  · rw [if_neg h, find_append_set o k v (Bool.eq_false_iff.mpr h)]

/-- Writing one key does not change reads of another. -/
theorem objGet_objSet_ne (o : Obj) (k q : String) (v : JsVal) (hq : q ≠ k) :
    objGet (objSet o k v) q = objGet o q := by
  unfold objGet objSet
  by_cases h : o.any (fun kv => kv.1 == k) = true
  · rw [if_pos h, find_map_set_ne o k q v hq]
  · rw [if_neg h, find_append_ne o k q v hq]

/-- Reading back the document field just written. -/
theorem docGet_docSet_self (d : Doc) (k : String) (v : DocVal) :
    docGet (docSet d k v) k = some v := by
  unfold docGet docSet
  by_cases h : d.any (fun kv => kv.1 == k) = true
  · rw [if_pos h, find_map_set d k v h]
    rfl
  · rw [if_neg h, find_append_set d k v (Bool.eq_false_iff.mpr h)]
    rfl

/-- Writing one document field does not change reads of another. -/
theorem docGet_docSet_ne (d : Doc) (k q : String) (v : DocVal) (hq : q ≠ k) :
    docGet (docSet d k v) q = docGet d q := by
  unfold docGet docSet
  by_cases h : d.any (fun kv => kv.1 == k) = true
  · rw [if_pos h, find_map_set_ne d k q v hq]
  · rw [if_neg h, find_append_ne d k q v hq]

/-- objSet preserves uniqueness of keys. -/
theorem nodup_keys_objSet (o : Obj) (k : String) (v : JsVal)
    (h : (o.map Prod.fst).Nodup) :
    ((objSet o k v).map Prod.fst).Nodup := by
  unfold objSet
  by_cases ha : o.any (fun kv => kv.1 == k) = true
  · rw [if_pos ha]
    have hkeys :
        (o.map (fun kv => if kv.1 == k then (k, v) else kv)).map Prod.fst =
          o.map Prod.fst := by
      rw [List.map_map]
      apply List.map_congr_left
      intro kv _
      by_cases h1 : (kv.1 == k) = true
      · simp only [Function.comp_apply, if_pos h1]
        exact (eq_of_beq h1).symm
      · simp only [Function.comp_apply, if_neg h1]
    rw [hkeys]
    exact h
  · rw [if_neg ha]
    rw [List.map_append]
    refine List.Nodup.append h (List.nodup_singleton k) ?_
    intro a ha1 ha2
    rw [List.map_singleton, List.mem_singleton] at ha2
    subst ha2
    obtain ⟨kv, hkv, hfst⟩ := List.mem_map.mp ha1
    have hone := List.any_eq_false.mp (Bool.eq_false_iff.mpr ha) kv hkv
    rw [hfst] at hone
    simp at hone

/-- Reading a single cons cell. -/
theorem objGet_cons (a : String) (b : JsVal) (tl : Obj) (k : String) :
    objGet ((a, b) :: tl) k = if a == k then b else objGet tl k := by
  unfold objGet
  rw [List.find?_cons]
  cases h : a == k <;> simp [h]

/-- An absent key reads as undefined. -/
theorem objGet_eq_undef_of_not_mem (o : Obj) (k : String)
    (h : k ∉ o.map Prod.fst) : objGet o k = .undefined := by
  induction o with
  | nil => rfl
  | cons hd tl ih =>
    simp only [List.map_cons, List.mem_cons, not_or] at h
    obtain ⟨a, b⟩ := hd
    rw [objGet_cons]
    have h1 : (a == k) = false :=
      beq_eq_false_iff_ne.mpr (fun he => h.1 (by simpa using he.symm))
    rw [h1]
    simpa using ih h.2

/-- On an object with unique keys, dropping the unset entries turns reads
of unset or absent keys into undefined and keeps every other read. -/
theorem objGet_filter_unset (o : Obj) (hnd : (o.map Prod.fst).Nodup)
    (k : String) :
    objGet (o.filter (fun kv => !kv.2.isUnset)) k =
      if (objGet o k).isUnset then .undefined else objGet o k := by
  induction o with
  | nil => rfl
  | cons hd tl ih =>
    simp only [List.map_cons, List.nodup_cons] at hnd
    obtain ⟨hnotin, hnd2⟩ := hnd
    obtain ⟨a, b⟩ := hd
    cases h1 : a == k with
    | true =>
      have hk : a = k := eq_of_beq h1
      cases h2 : b.isUnset with
      | true =>
        rw [List.filter_cons, if_neg (by simp [h2])]
        have hkt : k ∉ tl.map Prod.fst := by rw [← hk]; simpa using hnotin
        have hft : k ∉ (tl.filter (fun kv => !kv.2.isUnset)).map Prod.fst := by
          intro hmem
          apply hkt
          obtain ⟨kv, hkv, hfst⟩ := List.mem_map.mp hmem
          exact List.mem_map.mpr ⟨kv, List.mem_of_mem_filter hkv, hfst⟩
        rw [objGet_eq_undef_of_not_mem _ _ hft, objGet_cons]
        simp [h1, h2]
      | false =>
        rw [List.filter_cons, if_pos (by simp [h2]), objGet_cons, objGet_cons]
        simp [h1, h2]
    | false =>
      cases h2 : b.isUnset with
      | true =>
        rw [List.filter_cons, if_neg (by simp [h2]), objGet_cons]
        simp only [h1, Bool.false_eq_true, if_false]
        exact ih hnd2
      | false =>
        rw [List.filter_cons, if_pos (by simp [h2]), objGet_cons, objGet_cons]
        simp only [h1, Bool.false_eq_true, if_false]
        exact ih hnd2

/-- Claim C9: updateUnifiedSubscriptionData writes a subscriptionData
object holding exactly the non-null, non-undefined fields of the caller's
update plus the stamped metadata (lastUpdatedAt = now, lastUpdateSource =
source, dataVersion = "v2"); no null or undefined value is ever written;
and no user-document field other than subscriptionData is modified. -/
theorem c9_store_adapter_update (userDoc : Doc) (updates : Obj) (now : Nat)
    (source : String) (hnd : (updates.map Prod.fst).Nodup) :
    (∀ kv ∈ cleanSubscriptionData updates now source,
      kv.2.isUnset = false) ∧
    (∀ k, objGet (cleanSubscriptionData updates now source) k =
      if k = "lastUpdatedAt" then .timestamp now
      else if k = "lastUpdateSource" then .str source
      else if k = "dataVersion" then .str "v2"
      else if (objGet updates k).isUnset then .undefined
      else objGet updates k) ∧
    (∀ k, k ≠ "subscriptionData" →
      docGet (updateUnifiedSubscriptionData userDoc updates now source) k =
        docGet userDoc k) ∧
    docGet (updateUnifiedSubscriptionData userDoc updates now source)
        "subscriptionData" =
      some (.objv (cleanSubscriptionData updates now source)) := by
  refine ⟨?_, ?_, ?_, ?_⟩
  · intro kv hkv
    unfold cleanSubscriptionData at hkv
    have hmem := List.of_mem_filter hkv
    simpa using hmem
  · intro k
    unfold cleanSubscriptionData
    have hnd3 : (((objSet (objSet (objSet updates "lastUpdatedAt"
        (.timestamp now)) "lastUpdateSource" (.str source)) "dataVersion"
        (.str "v2"))).map Prod.fst).Nodup :=
      nodup_keys_objSet _ _ _
        (nodup_keys_objSet _ _ _ (nodup_keys_objSet _ _ _ hnd))
    rw [objGet_filter_unset _ hnd3 k]
    by_cases h1 : k = "lastUpdatedAt"
    · subst h1
      rw [objGet_objSet_ne _ _ _ _ (by decide),
        objGet_objSet_ne _ _ _ _ (by decide), objGet_objSet_self]
      simp [JsVal.isUnset]
    · by_cases h2 : k = "lastUpdateSource"
      · subst h2
        rw [objGet_objSet_ne _ _ _ _ (by decide), objGet_objSet_self]
        simp [JsVal.isUnset]
      · by_cases h3 : k = "dataVersion"
        · subst h3
          rw [objGet_objSet_self]
          simp [JsVal.isUnset]
        · rw [objGet_objSet_ne _ _ _ _ h3, objGet_objSet_ne _ _ _ _ h2,
            objGet_objSet_ne _ _ _ _ h1]
          simp [h1, h2, h3]
  · intro k hk
    unfold updateUnifiedSubscriptionData
    exact docGet_docSet_ne userDoc "subscriptionData" k _ hk
  · unfold updateUnifiedSubscriptionData
    exact docGet_docSet_self userDoc "subscriptionData" _

/-- Witness for claim C9's theorem: a two-field update (one null) against
a document with an unrelated field keeps the non-null field, drops the
null one, stamps the metadata, and leaves the unrelated field alone. -/
theorem c9_store_adapter_update_witness :
    objGet (cleanSubscriptionData c9Updates 5 "webhook") "entitlement" =
      .str "premium" ∧
    objGet (cleanSubscriptionData c9Updates 5 "webhook") "subscriptionType" =
      .undefined ∧
    objGet (cleanSubscriptionData c9Updates 5 "webhook") "lastUpdatedAt" =
      .timestamp 5 ∧
    docGet (updateUnifiedSubscriptionData c9UserDoc c9Updates 5 "webhook")
        "displayName" = some (.prim (.str "bob")) := by
  have h := c9_store_adapter_update c9UserDoc c9Updates 5 "webhook"
    (by decide)
  refine ⟨(h.2.1 "entitlement").trans (by decide),
    (h.2.1 "subscriptionType").trans (by decide),
    (h.2.1 "lastUpdatedAt").trans (by decide),
    (h.2.2.1 "displayName" (by decide)).trans (by decide)⟩
